import Mathlib

/-!
Verification development for the PiFM backend (src/backend/fm_receiver.py).

The backend is a Flask service controlling a three stage subprocess chain
(rtl_fm -> sox -> ffmpeg) with process wide mutable session state.  This file
gives a shallow embedding of the session state, the pipeline launcher
(start_streaming), the teardown routine (stop_streaming), the device presence
check (is_rtl_sdr_present), the capability probe (detect_rtl_sdr), the status
snapshot (get_system_status) and the HTTP handlers api_tune, api_stream and
api_update_config, together with theorems settling the specification claims.

Modelling conventions:
  * External effects (subprocess creation, termination, sleeps, running
    lsusb / rtl_test, writing the config file) are recorded as an explicit
    event trace; nondeterministic outcomes (device presence, whether the
    first stage survives the one second liveness window, how a terminate or
    wait call ends) are inputs drawn from an environment record.
  * Exception swallowing in the source (the try/except blocks of
    stop_streaming and is_rtl_sdr_present) is modelled by total functions
    over every possible outcome value: no outcome escapes.
  * Process handles are abstract pids (Nat), allocated from a counter kept in
    the state.  Gains are Python values: a number, the string auto, or None.
  * Process creation itself (Popen) is assumed to succeed; the except branch
    of start_streaming that catches a failed Popen is exercised by no claim.
-/

/-- Gain value as the Python code passes it around: a number, the string
auto, or Python None (`pynone`).  Source: fm_receiver.py lines 269-277. -/
inductive PyGain
  | auto
  | pynone
  | num (n : Int)
deriving DecidableEq

/-- Outcome of a terminate/wait call on one process inside stop_streaming
(fm_receiver.py lines 204-230): the wait returned in time, it timed out and
the follow up kill/wait succeeded, it timed out and the kill/wait itself
raised (swallowed), or terminate/wait raised some other exception
(swallowed). -/
inductive TermOutcome
  | ok
  | timeoutKillOk
  | timeoutKillErr
  | err
deriving DecidableEq

/-- Outcome of the `subprocess.run(["lsusb"], ...)` call inside
is_rtl_sdr_present (lines 152-161): either the combined stdout+stderr text,
or any exception (timeout, missing tool), which the source swallows. -/
inductive EnumOutcome
  | output (out : String)
  | failure
deriving DecidableEq

/-- Outcome of the `subprocess.run(["rtl_test","-t"], ...)` call inside
detect_rtl_sdr (lines 171-195): combined output text, or any exception. -/
inductive ProbeOutcome
  | output (out : String)
  | failure
deriving DecidableEq

/-- Externally visible effects of the controller, recorded as a trace. -/
inductive Event
  | spawn (cmd : List String) (pid : Nat)
  | terminate (pid : Nat)
  | kill (pid : Nat)
  | sleepE (ms : Nat)
  | run (cmd : List String)
  | saveConfig
deriving DecidableEq

/-- The persisted configuration keys that the launcher reads
(fm_receiver.py lines 73-80): a missing key means the JSON document lacks
it and the `.get` default applies. -/
structure Config where
  frequency : Option Int
  gain : Option PyGain
  sample_rate : Option Int
  audio_bitrate : Option Int
deriving DecidableEq

/-- The process wide mutable state of fm_receiver.py: the module globals
current_frequency, rtl_process, audio_process, is_playing,
_first_stream_this_session, _stream_died_logged and config, plus the
on-disk config document (`persisted`) and a fresh pid counter. -/
structure St where
  current_frequency : Option Int
  rtl_process : Option Nat
  audio_process : Option Nat
  is_playing : Bool
  first_stream_this_session : Bool
  stream_died_logged : Bool
  config : Config
  persisted : Config
  nextPid : Nat
deriving DecidableEq

/-- Environment for one call of the launcher: the lsusb outcome of its
presence check, whether the rtl_fm stage is still alive after the one
second liveness sleep on each of the two attempts, and how each
terminate/wait inside a teardown ends. -/
structure LaunchEnv where
  enum : EnumOutcome
  survives0 : Bool
  survives1 : Bool
  termOutcome : Nat → TermOutcome

/-- Substring test, modelling the Python `needle in haystack` operator. -/
def strContains (hay needle : String) : Bool :=
  decide (needle.toList <:+: hay.toList)

/-- The match test of is_rtl_sdr_present, line 159: the output must contain
one of the substrings `0bda:283`, `RTL283`, `RTL2838`. -/
def lsusb_matches (out : String) : Bool :=
  strContains out "0bda:283" || strContains out "RTL283" || strContains out "RTL2838"

/-- Device presence check, fm_receiver.py lines 148-161: runs lsusb only,
matches known RTL-SDR identifiers in the combined output, and returns
false on any exception.  Result paired with the event trace. -/
def is_rtl_sdr_present (o : EnumOutcome) : Bool × List Event :=
  match o with
  | .output out => (lsusb_matches out, [Event.run ["lsusb"]])
  | .failure => (false, [Event.run ["lsusb"]])

/-- Lower case a string, modelling Python str.lower for the ASCII text that
rtl_test produces. -/
def strLower (s : String) : String :=
  String.mk (s.toList.map Char.toLower)

/-- Capability probe, fm_receiver.py lines 164-195: presence first, then
runs rtl_test -t once; reports true when the output mentions Found and
device (every inner branch of the source returns True); false on any
exception.  Unused by the launcher: kept to name what the probe is. -/
def detect_rtl_sdr (e : EnumOutcome) (p : ProbeOutcome) : Bool × List Event :=
  let pres := is_rtl_sdr_present e
  if pres.1 then
    match p with
    | .output out =>
        (strContains out "Found" && strContains (strLower out) "device",
         pres.2 ++ [Event.run ["rtl_test", "-t"]])
    | .failure => (false, pres.2 ++ [Event.run ["rtl_test", "-t"]])
  else (false, pres.2)

/-- Events of one terminate/wait block of stop_streaming for one pid, by
outcome (lines 204-215 for audio_process, 218-229 for rtl_process): a
timeout escalates to kill; every exception is swallowed. -/
def termEvents (f : Nat → TermOutcome) (pid : Nat) : List Event :=
  match f pid with
  | .ok => [Event.terminate pid]
  | .timeoutKillOk => [Event.terminate pid, Event.kill pid]
  | .timeoutKillErr => [Event.terminate pid, Event.kill pid]
  | .err => [Event.terminate pid]

/-- State after stop_streaming (lines 198-232): playing flag cleared first,
then both handles cleared; every other field untouched. -/
def stopState (s : St) : St :=
  { s with is_playing := false, audio_process := none, rtl_process := none }

/-- Trace of stop_streaming: the audio (final) stage is terminated first,
then the rtl (first) stage; absent handles are skipped. -/
def stopTrace (f : Nat → TermOutcome) (s : St) : List Event :=
  (match s.audio_process with
   | none => []
   | some p => termEvents f p) ++
  (match s.rtl_process with
   | none => []
   | some p => termEvents f p)

/-- stop_streaming, fm_receiver.py lines 198-232.  Total over every
termination outcome: the source swallows every exception, so the model
never fails.  The timeout argument is threaded for fidelity; it does not
change which events occur or the resulting state. -/
def stop_streaming (timeout : Nat) (f : Nat → TermOutcome) (s : St) : St × List Event :=
  (stopState s, stopTrace f s)

/-- The clamp condition of the session epoch latch, line 274: gain equals
the string auto, or gain is Python None, or gain is a number above 20. -/
def gainNeedsClamp : PyGain → Bool
  | .auto => true
  | .pynone => true
  | .num n => decide (20 < n)

/-- Gain resolution, line 269: the override wins unless it is Python None,
in which case config gain (default 0) applies. -/
def resolveGain (ov : PyGain) (c : Config) : PyGain :=
  match ov with
  | .pynone => c.gain.getD (.num 0)
  | g => g

/-- The session epoch override, lines 272-277: on the first stream of the
process lifetime, clamp a qualifying gain to 0 and clear the latch; the
latch is cleared whether or not the gain was clamped. -/
def applyEpoch (g : PyGain) (s : St) : PyGain × St :=
  if s.first_stream_this_session then
    ((if gainNeedsClamp g then PyGain.num 0 else g),
     { s with first_stream_this_session := false })
  else (g, s)

/-- The AM direct sampling offset constant, line 285. -/
def AM_DIRECT_OFFSET_HZ : Int := 264000

/-- Band test, line 250: `is_am = 530000 <= frequency <= 1700000`. -/
def isAM (f : Int) : Bool :=
  decide (530000 ≤ f) && decide (f ≤ 1700000)

/-- The frequency validation of the launcher and of api_tune, lines 245 and
574: AM 530-1700 kHz or FM 87.5-108 MHz, inclusive. -/
def valid_freq (f : Int) : Bool :=
  (decide (530000 ≤ f) && decide (f ≤ 1700000)) ||
  (decide (87500000 ≤ f) && decide (f ≤ 108000000))

/-- Gain flags appended to the rtl_fm command, lines 312-315: AGC (-T) for
auto or None, otherwise an explicit -g value. -/
def gainArgs : PyGain → List String
  | .auto => ["-T"]
  | .pynone => ["-T"]
  | .num n => ["-g", toString n]

/-- The rtl_fm command before the gain flags, lines 279-310.  AM: direct
sampling at the 24 kHz device and output rate with edge tuning, DC
blocking, and the offset corrected frequency max(0, f - 264000).  FM: the
requested frequency, the configured device sample rate, and 48 kHz
output. -/
def rtl_base_cmd (is_am : Bool) (frequency sample_rate : Int) : List String :=
  if is_am then
    ["rtl_fm", "-f", toString (max 0 (frequency - AM_DIRECT_OFFSET_HZ)),
     "-s", "24000", "-M", "am", "-r", "24000",
     "-E", "direct", "-E", "edge", "-E", "dc", "-A", "fast"]
  else
    ["rtl_fm", "-f", toString frequency, "-s", toString sample_rate,
     "-M", "wfm", "-r", "48000", "-A", "fast"]

/-- The full rtl_fm command: base plus gain flags (lines 312-315). -/
def rtl_cmd_for (is_am : Bool) (frequency sample_rate : Int) (g : PyGain) : List String :=
  rtl_base_cmd is_am frequency sample_rate ++ gainArgs g

/-- The sox command, lines 319-336: raw 16 bit mono input at the band rate
(24 kHz AM, 48 kHz FM), WAV output resampled to 44.1 kHz, and for AM the
gain 20 / norm -3 effect chain appended after the output file. -/
def sox_cmd_for (is_am : Bool) : List String :=
  (["sox", "-t", "raw", "-r", if is_am then "24000" else "48000",
    "-c", "1", "-b", "16", "-e", "signed-integer", "-",
    "-t", "wav", "-r", "44100", "-"]) ++
  (if is_am then ["gain", "20", "norm", "-3"] else [])

/-- The ffmpeg command, lines 341-353: constant bitrate mono MP3 at
44.1 kHz with the XING header and bit reservoir disabled. -/
def ffmpeg_cmd_for (audio_bitrate : Int) : List String :=
  ["ffmpeg", "-f", "wav", "-i", "-", "-f", "mp3", "-acodec", "libmp3lame",
   "-b:a", toString audio_bitrate ++ "k", "-ar", "44100", "-ac", "1",
   "-write_xing", "0", "-reservoir", "0", "-"]

/-- Events of spawning the three stage chain on one attempt (lines
373-411): rtl_fm, sox and ffmpeg are started in order and the one second
liveness sleep follows. -/
def spawnTrace (rtlCmd soxCmd ffCmd : List String) (s : St) : List Event :=
  [Event.spawn rtlCmd s.nextPid, Event.spawn soxCmd (s.nextPid + 1),
   Event.spawn ffCmd (s.nextPid + 2), Event.sleepE 1000]

/-- State after spawning the chain: rtl_process and audio_process hold the
new first and final stage pids (the sox pid is held by no global). -/
def spawnState (s : St) : St :=
  { s with rtl_process := some s.nextPid, audio_process := some (s.nextPid + 2),
           nextPid := s.nextPid + 3 }

/-- One launch attempt, lines 371-421: spawn the chain, sleep one second,
then poll the first stage.  Alive: clear the death latch, mark playing,
succeed.  Exited: tear the chain down (stop_streaming with its default
five second timeout) and fail this attempt. -/
def tryAttempt (rtlCmd soxCmd ffCmd : List String) (survives : Bool)
    (f : Nat → TermOutcome) (s : St) : Bool × St × List Event :=
  if survives then
    (true,
     { spawnState s with stream_died_logged := false, is_playing := true },
     spawnTrace rtlCmd soxCmd ffCmd s)
  else
    (false, stopState (spawnState s),
     spawnTrace rtlCmd soxCmd ffCmd s ++ stopTrace f (spawnState s))

/-- The `for attempt in range(2)` loop, lines 371-426: a failed first
attempt is followed by the four second USB release backoff and exactly one
retry; a failed second attempt ends the launch with failure. -/
def attemptLoop (rtlCmd soxCmd ffCmd : List String) (env : LaunchEnv) (s : St) :
    Bool × St × List Event :=
  let r0 := tryAttempt rtlCmd soxCmd ffCmd env.survives0 env.termOutcome s
  if r0.1 then r0
  else
    let r1 := tryAttempt rtlCmd soxCmd ffCmd env.survives1 env.termOutcome r0.2.1
    (r1.1, r1.2.1, r0.2.2 ++ [Event.sleepE 4000] ++ r1.2.2)

/-- The teardown of a currently playing session at the top of a launch,
lines 252-254: stop with a two second timeout and 0.3 s settle on a
retune, five seconds and 0.5 s otherwise; a no-op when nothing plays. -/
def preFlight (is_retune : Bool) (f : Nat → TermOutcome) (s : St) : St × List Event :=
  if s.is_playing then
    (stopState s, stopTrace f s ++ [Event.sleepE (if is_retune then 300 else 500)])
  else (s, [])

/-- The body of start_streaming after frequency validation, lines 249-426:
record the frequency, tear down a playing session, require lsusb presence
(fail with no retry if absent), sleep 1.5 s on a cold start, resolve and
possibly epoch clamp the gain, build the three commands and run the two
attempt loop. -/
def launchAfterValidation (frequency : Int) (gain_override : PyGain) (is_retune : Bool)
    (env : LaunchEnv) (s : St) : Bool × St × List Event :=
  let s1 := (preFlight is_retune env.termOutcome s).1
  let trPre := (preFlight is_retune env.termOutcome s).2 ++ (is_rtl_sdr_present env.enum).2
  if (is_rtl_sdr_present env.enum).1 then
    let g := applyEpoch (resolveGain gain_override s1.config) s1
    let r := attemptLoop
      (rtl_cmd_for (isAM frequency) frequency (s1.config.sample_rate.getD 170000) g.1)
      (sox_cmd_for (isAM frequency))
      (ffmpeg_cmd_for (s1.config.audio_bitrate.getD 128)) env g.2
    (r.1, r.2.1, (trPre ++ (if is_retune then [] else [Event.sleepE 1500])) ++ r.2.2)
  else (false, s1, trPre)

/-- start_streaming, fm_receiver.py lines 235-431: resolve the frequency
argument against config, reject an out of range frequency before touching
any state, otherwise run the launch body. -/
def start_streaming (freqArg : Option Int) (gain_override : PyGain) (is_retune : Bool)
    (env : LaunchEnv) (s : St) : Bool × St × List Event :=
  let frequency := freqArg.getD (s.config.frequency.getD 101500000)
  if valid_freq frequency then
    launchAfterValidation frequency gain_override is_retune env
      { s with current_frequency := some frequency }
  else (false, s, [])

/-- The point in time status snapshot, fm_receiver.py lines 434-453; the
CPU temperature read is an environment input. -/
structure Status where
  rtl_sdr_detected : Bool
  is_playing : Bool
  current_frequency : Option Int
  service_running : Bool
  cpu_temperature : Option Int
  rds_ps : Option String
  rds_radiotext : Option String
deriving DecidableEq

/-- get_system_status, lines 434-453: lsusb-only detection plus a copy of
the session fields; the RDS fields are always null. -/
def get_system_status (e : EnumOutcome) (temp : Option Int) (s : St) : Status × List Event :=
  let pres := is_rtl_sdr_present e
  ({ rtl_sdr_detected := pres.1, is_playing := s.is_playing,
     current_frequency := s.current_frequency, service_running := true,
     cpu_temperature := temp, rds_ps := none, rds_radiotext := none }, pres.2)

/-- HTTP response of the JSON endpoints, reduced to the fields the claims
mention: the status code and the success flag of the body. -/
structure HttpResp where
  status : Nat
  success : Bool
deriving DecidableEq

/-- The frequency field of a tune request body: missing, present but not
parseable as an integer (int() raises, caught as a 400), or an integer. -/
inductive FreqField
  | absent
  | notAnInt
  | val (n : Int)
deriving DecidableEq

/-- api_tune, fm_receiver.py lines 565-588: 400 on a missing or
unparseable frequency, 400 on an out of range frequency (before any state
is touched), otherwise launch with is_retune set from the playing flag;
on success persist the frequency and answer 200, on failure answer 500. -/
def api_tune (freq : FreqField) (env : LaunchEnv) (s : St) : HttpResp × St × List Event :=
  match freq with
  | .absent => ({ status := 400, success := false }, s, [])
  | .notAnInt => ({ status := 400, success := false }, s, [])
  | .val frequency =>
    if valid_freq frequency then
      let r := start_streaming (some frequency) .pynone s.is_playing env s
      if r.1 then
        let cfg := { r.2.1.config with frequency := some frequency }
        ({ status := 200, success := true },
         { r.2.1 with config := cfg, persisted := cfg }, r.2.2 ++ [Event.saveConfig])
      else ({ status := 500, success := false }, r.2.1, r.2.2)
    else ({ status := 400, success := false }, s, [])

/-- Response of the stream endpoint: the 503 plain text refusal, or the
chunked audio body. -/
inductive StreamResp
  | notActive
  | streamBody
deriving DecidableEq

/-- HTTP status of a stream endpoint response (lines 631 and 667-680). -/
def streamStatus : StreamResp → Nat
  | .notActive => 503
  | .streamBody => 200

/-- The guard of api_stream, lines 629-631: `if not is_playing or not
audio_process` answer 503 with no side effect, otherwise hand the encoder
output to the chunked response. -/
def api_stream (s : St) : StreamResp × St × List Event :=
  if !s.is_playing || s.audio_process.isNone then (.notActive, s, [])
  else (.streamBody, s, [])

/-- A config update body, reduced to the two keys that trigger a relaunch
(lines 505-507); `some PyGain.pynone` is a gain key holding JSON null. -/
structure ConfigPatch where
  frequency : Option Int
  gain : Option PyGain
deriving DecidableEq

/-- The merge loop of api_update_config, lines 498-500: a present key
overwrites the config entry (all recognised keys exist after load_config). -/
def applyPatch (p : ConfigPatch) (c : Config) : Config :=
  { c with
    frequency := match p.frequency with | some v => some v | none => c.frequency,
    gain := match p.gain with | some g => some g | none => c.gain }

/-- api_update_config, fm_receiver.py lines 491-509: merge the recognised
keys, persist, relaunch when frequency or gain was in the body (the launch
result is dropped), and always answer 200 success. -/
def api_update_config (patch : ConfigPatch) (env : LaunchEnv) (s : St) :
    HttpResp × St × List Event :=
  let cfg := applyPatch patch s.config
  let s1 := { s with config := cfg, persisted := cfg }
  if patch.frequency.isSome || patch.gain.isSome then
    let r := start_streaming cfg.frequency (patch.gain.getD .pynone) false env s1
    ({ status := 200, success := true }, r.2.1, Event.saveConfig :: r.2.2)
  else ({ status := 200, success := true }, s1, [Event.saveConfig])

/-- Is an event a process spawn. -/
def isSpawn : Event → Bool
  | .spawn _ _ => true
  | _ => false

/-- Is an event a spawn of the first stage (an rtl_fm command). -/
def isRtlSpawn : Event → Bool
  | .spawn cmd _ => decide (cmd.head? = some "rtl_fm")
  | _ => false

/-- Number of first stage launches recorded in a trace. -/
def rtlSpawnCount (tr : List Event) : Nat :=
  (tr.filter isRtlSpawn).length

/-- Number of capability probe invocations (rtl_test runs) in a trace. -/
def probeCount (tr : List Event) : Nat :=
  (tr.filter (fun e => decide (e = Event.run ["rtl_test", "-t"]))).length

/-- Every rtl_fm spawn in the trace carries the gain flags of `g`. -/
def rtlGainOk (g : PyGain) (tr : List Event) : Prop :=
  ∀ c p, Event.spawn c p ∈ tr → c.head? = some "rtl_fm" → gainArgs g <:+ c

/-- Decidable check that some rtl_fm spawn in the trace does not end in
the flags `-g 0`: evidence that the launch did not run with an effective
gain of zero. -/
def someRtlSpawnNotGain0 (tr : List Event) : Bool :=
  tr.any fun e =>
    match e with
    | .spawn c _ => decide (c.head? = some "rtl_fm") && !(decide (gainArgs (.num 0) <:+ c))
    | _ => false

/-- Decidable check that some rtl_fm spawn in the trace carries the AGC
flag -T. -/
def someRtlSpawnAGC (tr : List Event) : Bool :=
  tr.any fun e =>
    match e with
    | .spawn c _ => decide (c.head? = some "rtl_fm") && c.contains "-T"
    | _ => false

/-- The argument following the first occurrence of a flag in a command
line. -/
def argAfter (flag : String) : List String → Option String
  | [] => none
  | [_] => none
  | x :: y :: rest => if x = flag then some y else argAfter flag (y :: rest)

/-- A loaded default configuration, matching the defaults of load_config
(lines 73-80). -/
def cfg0 : Config :=
  { frequency := some 101500000, gain := some (.num 0),
    sample_rate := some 170000, audio_bitrate := some 64 }

/-- The state right after process start: nothing playing, no handles, the
epoch latch armed (line 67), default configuration loaded. -/
def st0 : St :=
  { current_frequency := none, rtl_process := none, audio_process := none,
    is_playing := false, first_stream_this_session := true,
    stream_died_logged := false, config := cfg0, persisted := cfg0, nextPid := 1 }

/-- A state with a live pipeline: playing, first stage pid 41, final stage
pid 43, latch already spent. -/
def stPlaying : St :=
  { current_frequency := some 101500000, rtl_process := some 41,
    audio_process := some 43, is_playing := true,
    first_stream_this_session := false, stream_died_logged := false,
    config := cfg0, persisted := cfg0, nextPid := 44 }

/-- Environment: device enumerated, but the first stage dies within the
liveness window on both attempts; terminations succeed. -/
def envDies : LaunchEnv :=
  { enum := .output "Bus 001 Device 004: ID 0bda:2838 Realtek", survives0 := false,
    survives1 := false, termOutcome := fun _ => .ok }

/-- Environment: device enumerated and the first stage survives. -/
def envOk : LaunchEnv :=
  { enum := .output "Bus 001 Device 004: ID 0bda:2838 Realtek", survives0 := true,
    survives1 := true, termOutcome := fun _ => .ok }

/-- Environment: the lsusb enumeration shows no tuner. -/
def envAbsent : LaunchEnv :=
  { enum := .failure, survives0 := false, survives1 := false,
    termOutcome := fun _ => .ok }

theorem terminate_mem_termEvents (f : Nat → TermOutcome) (p : Nat) :
    Event.terminate p ∈ termEvents f p := by
  unfold termEvents
  rcases hf : f p <;> simp

theorem termEvents_mem {f : Nat → TermOutcome} {p : Nat} {e : Event}
    (h : e ∈ termEvents f p) : e = Event.terminate p ∨ e = Event.kill p := by
  unfold termEvents at h
  rcases hf : f p <;> simp_all

theorem stopTrace_mem {f : Nat → TermOutcome} {s : St} {e : Event}
    (h : e ∈ stopTrace f s) : ∃ p, e = Event.terminate p ∨ e = Event.kill p := by
  unfold stopTrace at h
  rcases List.mem_append.1 h with h1 | h1 <;>
    [cases ha : s.audio_process; cases ha : s.rtl_process] <;>
    rw [ha] at h1 <;> simp_all <;> exact ⟨_, termEvents_mem h1⟩

theorem terminate_audio_mem_stopTrace {f : Nat → TermOutcome} {s : St} {p : Nat}
    (h : s.audio_process = some p) : Event.terminate p ∈ stopTrace f s := by
  unfold stopTrace
  rw [h]
  exact List.mem_append_left _ (terminate_mem_termEvents f p)

theorem terminate_rtl_mem_stopTrace {f : Nat → TermOutcome} {s : St} {p : Nat}
    (h : s.rtl_process = some p) : Event.terminate p ∈ stopTrace f s := by
  unfold stopTrace
  rw [h]
  exact List.mem_append_right _ (terminate_mem_termEvents f p)

theorem isSpawn_stopTrace {f : Nat → TermOutcome} {s : St} {e : Event}
    (h : e ∈ stopTrace f s) : isSpawn e = false := by
  rcases stopTrace_mem h with ⟨p, hp | hp⟩ <;> subst hp <;> rfl

theorem rtlSpawnCount_append (a b : List Event) :
    rtlSpawnCount (a ++ b) = rtlSpawnCount a + rtlSpawnCount b := by
  simp [rtlSpawnCount, List.filter_append]

theorem probeCount_append (a b : List Event) :
    probeCount (a ++ b) = probeCount a + probeCount b := by
  simp [probeCount, List.filter_append]

theorem rtlSpawnCount_eq_zero {tr : List Event}
    (h : ∀ e ∈ tr, isRtlSpawn e = false) : rtlSpawnCount tr = 0 := by
  simp [rtlSpawnCount, List.filter_eq_nil_iff.2 (by simpa using h)]

theorem rtlSpawnCount_stopTrace (f : Nat → TermOutcome) (s : St) :
    rtlSpawnCount (stopTrace f s) = 0 := by
  refine rtlSpawnCount_eq_zero fun e he => ?_
  rcases stopTrace_mem he with ⟨p, hp | hp⟩ <;> subst hp <;> rfl

theorem rtl_cmd_head (a : Bool) (f sr : Int) (g : PyGain) :
    (rtl_cmd_for a f sr g).head? = some "rtl_fm" := by
  cases a <;> rfl

theorem sox_cmd_head (a : Bool) : (sox_cmd_for a).head? = some "sox" := by
  cases a <;> rfl

theorem ffmpeg_cmd_head (br : Int) : (ffmpeg_cmd_for br).head? = some "ffmpeg" := rfl

theorem gainArgs_suffix_rtl_cmd (a : Bool) (f sr : Int) (g : PyGain) :
    gainArgs g <:+ rtl_cmd_for a f sr g :=
  List.suffix_append _ _

theorem spawnTrace_mem {rc sc fc : List String} {s : St} {e : Event}
    (h : e ∈ spawnTrace rc sc fc s) :
    e = Event.spawn rc s.nextPid ∨ e = Event.spawn sc (s.nextPid + 1) ∨
    e = Event.spawn fc (s.nextPid + 2) ∨ e = Event.sleepE 1000 := by
  simpa [spawnTrace] using h

theorem rtlSpawnCount_spawnTrace {rc : List String} (sc fc : List String) (s : St)
    (hr : rc.head? = some "rtl_fm") (hs : sc.head? = some "sox")
    (hf : fc.head? = some "ffmpeg") :
    rtlSpawnCount (spawnTrace rc sc fc s) = 1 := by
  simp [rtlSpawnCount, spawnTrace, List.filter, isRtlSpawn, hr, hs, hf]

theorem tryAttempt_fst (rc sc fc : List String) (b : Bool) (f : Nat → TermOutcome)
    (s : St) : (tryAttempt rc sc fc b f s).1 = b := by
  cases b <;> rfl

theorem tryAttempt_false_state (rc sc fc : List String) (f : Nat → TermOutcome)
    (s : St) : (tryAttempt rc sc fc false f s).2.1 = stopState (spawnState s) := rfl

theorem tryAttempt_true_state (rc sc fc : List String) (f : Nat → TermOutcome)
    (s : St) : (tryAttempt rc sc fc true f s).2.1 =
      { spawnState s with stream_died_logged := false, is_playing := true } := rfl

theorem tryAttempt_mem {rc sc fc : List String} {b : Bool} {f : Nat → TermOutcome}
    {s : St} {e : Event} (h : e ∈ (tryAttempt rc sc fc b f s).2.2) :
    e ∈ spawnTrace rc sc fc s ∨ ∃ p, e = Event.terminate p ∨ e = Event.kill p := by
  cases b with
  | true => exact Or.inl (by simpa [tryAttempt] using h)
  | false =>
    rcases List.mem_append.1 (by simpa [tryAttempt] using h) with h1 | h1
    · exact Or.inl h1
    · exact Or.inr (stopTrace_mem h1)

theorem rtlSpawnCount_tryAttempt {rc : List String} (sc fc : List String) (b : Bool)
    (f : Nat → TermOutcome) (s : St)
    (hr : rc.head? = some "rtl_fm") (hs : sc.head? = some "sox")
    (hf : fc.head? = some "ffmpeg") :
    rtlSpawnCount (tryAttempt rc sc fc b f s).2.2 = 1 := by
  cases b with
  | true => simp [tryAttempt, rtlSpawnCount_spawnTrace sc fc s hr hs hf]
  | false =>
    simp [tryAttempt, rtlSpawnCount_append, rtlSpawnCount_stopTrace,
      rtlSpawnCount_spawnTrace sc fc s hr hs hf]

theorem attemptLoop_fst (rc sc fc : List String) (env : LaunchEnv) (s : St) :
    (attemptLoop rc sc fc env s).1 = (env.survives0 || env.survives1) := by
  rcases env with ⟨e, b0, b1, f⟩
  cases b0 <;> cases b1 <;> simp [attemptLoop, tryAttempt]

theorem attemptLoop_freq (rc sc fc : List String) (env : LaunchEnv) (s : St) :
    (attemptLoop rc sc fc env s).2.1.current_frequency = s.current_frequency := by
  rcases env with ⟨e, b0, b1, f⟩
  cases b0 <;> cases b1 <;>
    simp [attemptLoop, tryAttempt, spawnState, stopState]

theorem attemptLoop_first_stream (rc sc fc : List String) (env : LaunchEnv) (s : St) :
    (attemptLoop rc sc fc env s).2.1.first_stream_this_session =
      s.first_stream_this_session := by
  rcases env with ⟨e, b0, b1, f⟩
  cases b0 <;> cases b1 <;>
    simp [attemptLoop, tryAttempt, spawnState, stopState]

theorem attemptLoop_false_state (rc sc fc : List String) (env : LaunchEnv) (s : St)
    (h : (attemptLoop rc sc fc env s).1 = false) :
    (attemptLoop rc sc fc env s).2.1.is_playing = false ∧
    (attemptLoop rc sc fc env s).2.1.rtl_process = none ∧
    (attemptLoop rc sc fc env s).2.1.audio_process = none := by
  rcases env with ⟨e, b0, b1, f⟩
  rw [attemptLoop_fst] at h
  simp at h
  simp [attemptLoop, tryAttempt, h.1, h.2, stopState, spawnState]

theorem attemptLoop_true_state (rc sc fc : List String) (env : LaunchEnv) (s : St)
    (h : (attemptLoop rc sc fc env s).1 = true) :
    (attemptLoop rc sc fc env s).2.1.is_playing = true ∧
    (attemptLoop rc sc fc env s).2.1.rtl_process.isSome = true ∧
    (attemptLoop rc sc fc env s).2.1.audio_process.isSome = true := by
  rcases env with ⟨e, b0, b1, f⟩
  cases b0 <;> cases b1 <;>
    simp_all [attemptLoop, tryAttempt, spawnState, stopState]

theorem attemptLoop_trace_die0 (rc sc fc : List String) (env : LaunchEnv) (s : St)
    (h0 : env.survives0 = false) :
    (attemptLoop rc sc fc env s).2.2 =
      (tryAttempt rc sc fc false env.termOutcome s).2.2 ++ [Event.sleepE 4000] ++
      (tryAttempt rc sc fc env.survives1 env.termOutcome
        (tryAttempt rc sc fc false env.termOutcome s).2.1).2.2 := by
  simp [attemptLoop, h0, tryAttempt_fst]

theorem attemptLoop_trace_ok0 (rc sc fc : List String) (env : LaunchEnv) (s : St)
    (h0 : env.survives0 = true) :
    (attemptLoop rc sc fc env s).2.2 = spawnTrace rc sc fc s := by
  simp [attemptLoop, h0, tryAttempt_fst, tryAttempt]

theorem tryAttempt_spawn_mem {rc sc fc : List String} {b : Bool}
    {f : Nat → TermOutcome} {s : St} {c : List String} {p : Nat}
    (h : Event.spawn c p ∈ (tryAttempt rc sc fc b f s).2.2) :
    c = rc ∨ c = sc ∨ c = fc := by
  rcases tryAttempt_mem h with h1 | ⟨q, hq | hq⟩
  · rcases spawnTrace_mem h1 with h2 | h2 | h2 | h2 <;> simp_all
  · simp_all
  · simp_all

theorem attemptLoop_spawn_mem {rc sc fc : List String} {env : LaunchEnv} {s : St}
    {c : List String} {p : Nat}
    (h : Event.spawn c p ∈ (attemptLoop rc sc fc env s).2.2) :
    c = rc ∨ c = sc ∨ c = fc := by
  rcases env with ⟨e, b0, b1, f⟩
  cases b0 with
  | true =>
    rw [attemptLoop_trace_ok0 rc sc fc _ s rfl] at h
    rcases spawnTrace_mem h with h2 | h2 | h2 | h2 <;> simp_all
  | false =>
    rw [attemptLoop_trace_die0 rc sc fc _ s rfl] at h
    rcases List.mem_append.1 h with h1 | h1
    · rcases List.mem_append.1 h1 with h2 | h2
      · exact tryAttempt_spawn_mem h2
      · simp_all
    · exact tryAttempt_spawn_mem h1

theorem preFlight_is_playing (rt : Bool) (f : Nat → TermOutcome) (s : St) :
    (preFlight rt f s).1.is_playing = false := by
  by_cases h : s.is_playing = true <;> simp_all [preFlight, stopState]

theorem preFlight_freq (rt : Bool) (f : Nat → TermOutcome) (s : St) :
    (preFlight rt f s).1.current_frequency = s.current_frequency := by
  by_cases h : s.is_playing = true <;> simp_all [preFlight, stopState]

theorem preFlight_config (rt : Bool) (f : Nat → TermOutcome) (s : St) :
    (preFlight rt f s).1.config = s.config := by
  by_cases h : s.is_playing = true <;> simp_all [preFlight, stopState]

theorem preFlight_first_stream (rt : Bool) (f : Nat → TermOutcome) (s : St) :
    (preFlight rt f s).1.first_stream_this_session = s.first_stream_this_session := by
  by_cases h : s.is_playing = true <;> simp_all [preFlight, stopState]

theorem preFlight_handles_of_playing (rt : Bool) (f : Nat → TermOutcome) (s : St)
    (h : s.is_playing = true) :
    (preFlight rt f s).1.rtl_process = none ∧
    (preFlight rt f s).1.audio_process = none := by
  simp [preFlight, h, stopState]

theorem preFlight_trace_of_playing (rt : Bool) (f : Nat → TermOutcome) (s : St)
    (h : s.is_playing = true) :
    (preFlight rt f s).2 = stopTrace f s ++ [Event.sleepE (if rt then 300 else 500)] := by
  simp [preFlight, h]

theorem preFlight_mem {rt : Bool} {f : Nat → TermOutcome} {s : St} {e : Event}
    (h : e ∈ (preFlight rt f s).2) :
    (∃ p, e = Event.terminate p ∨ e = Event.kill p) ∨ ∃ ms, e = Event.sleepE ms := by
  by_cases hp : s.is_playing = true
  · rw [preFlight_trace_of_playing rt f s hp] at h
    rcases List.mem_append.1 h with h1 | h1
    · exact Or.inl (stopTrace_mem h1)
    · simp_all
  · simp_all [preFlight]

theorem rtlSpawnCount_preFlight (rt : Bool) (f : Nat → TermOutcome) (s : St) :
    rtlSpawnCount (preFlight rt f s).2 = 0 := by
  refine rtlSpawnCount_eq_zero fun e he => ?_
  rcases preFlight_mem he with ⟨p, hp | hp⟩ | ⟨ms, hm⟩ <;> subst_vars <;> rfl

theorem rtlSpawnCount_presence (o : EnumOutcome) :
    rtlSpawnCount (is_rtl_sdr_present o).2 = 0 := by
  cases o <;> rfl

theorem probeCount_eq_zero {tr : List Event}
    (h : ∀ e ∈ tr, e ≠ Event.run ["rtl_test", "-t"]) : probeCount tr = 0 := by
  simp only [probeCount, List.length_eq_zero]
  exact List.filter_eq_nil_iff.2 (by simpa using h)

theorem probeCount_stopTrace (f : Nat → TermOutcome) (s : St) :
    probeCount (stopTrace f s) = 0 := by
  refine probeCount_eq_zero fun e he => ?_
  rcases stopTrace_mem he with ⟨p, hp | hp⟩ <;> simp_all

theorem probeCount_preFlight (rt : Bool) (f : Nat → TermOutcome) (s : St) :
    probeCount (preFlight rt f s).2 = 0 := by
  refine probeCount_eq_zero fun e he => ?_
  rcases preFlight_mem he with ⟨p, hp | hp⟩ | ⟨ms, hm⟩ <;> simp_all

theorem probeCount_presence (o : EnumOutcome) :
    probeCount (is_rtl_sdr_present o).2 = 0 := by
  cases o <;> rfl

theorem probeCount_spawnTrace (rc sc fc : List String) (s : St) :
    probeCount (spawnTrace rc sc fc s) = 0 := by
  refine probeCount_eq_zero fun e he => ?_
  rcases spawnTrace_mem he with h | h | h | h <;> simp_all

theorem probeCount_tryAttempt (rc sc fc : List String) (b : Bool)
    (f : Nat → TermOutcome) (s : St) :
    probeCount (tryAttempt rc sc fc b f s).2.2 = 0 := by
  refine probeCount_eq_zero fun e he => ?_
  rcases tryAttempt_mem he with h | ⟨p, hp | hp⟩
  · rcases spawnTrace_mem h with h2 | h2 | h2 | h2 <;> simp_all
  · simp_all
  · simp_all

theorem probeCount_attemptLoop (rc sc fc : List String) (env : LaunchEnv) (s : St) :
    probeCount (attemptLoop rc sc fc env s).2.2 = 0 := by
  rcases env with ⟨e, b0, b1, f⟩
  cases b0 with
  | true =>
    rw [attemptLoop_trace_ok0 rc sc fc _ s rfl]
    exact probeCount_spawnTrace rc sc fc s
  | false =>
    rw [attemptLoop_trace_die0 rc sc fc _ s rfl, probeCount_append, probeCount_append,
        probeCount_tryAttempt, probeCount_tryAttempt]
    rfl

/-- The characters Nat.digitChar can produce. -/
def allowedDigits : List Char := "0123456789abcdef*".toList

/-- The characters the decimal rendering of an Int can contain. -/
def allowedIntChars : List Char := allowedDigits ++ ['-']

theorem digitChar_mem_allowed (n : Nat) : Nat.digitChar n ∈ allowedDigits := by
  rcases Nat.lt_or_ge n 16 with h | h
  · interval_cases n <;> decide
  · have he : Nat.digitChar n = '*' := by
      delta Nat.digitChar
      repeat rw [if_neg (by omega)]
    rw [he]
    decide

theorem toDigitsCore_chars (b : Nat) (fuel : Nat) :
    ∀ (n : Nat) (acc : List Char), (∀ c ∈ acc, c ∈ allowedDigits) →
      ∀ c ∈ Nat.toDigitsCore b fuel n acc, c ∈ allowedDigits := by
  induction fuel with
  | zero => intro n acc h c hc; exact h c (by simpa [Nat.toDigitsCore] using hc)
  | succ fuel ih =>
    intro n acc h c hc
    simp only [Nat.toDigitsCore] at hc
    by_cases hnb : n / b = 0
    · rw [if_pos hnb] at hc
      rcases List.mem_cons.1 hc with h1 | h1
      · exact h1 ▸ digitChar_mem_allowed (n % b)
      · exact h c h1
    · rw [if_neg hnb] at hc
      refine ih (n / b) (Nat.digitChar (n % b) :: acc) ?_ c hc
      intro d hd
      rcases List.mem_cons.1 hd with h1 | h1
      · exact h1 ▸ digitChar_mem_allowed (n % b)
      · exact h d h1

theorem nat_repr_chars (n : Nat) : ∀ c ∈ (Nat.repr n).toList, c ∈ allowedDigits := by
  intro c hc
  exact toDigitsCore_chars 10 (n + 1) n [] (by simp) c hc

theorem int_toString_chars (n : Int) :
    ∀ c ∈ (toString n).toList, c ∈ allowedIntChars := by
  cases n with
  | ofNat m =>
    intro c hc
    exact List.mem_append_left _ (nat_repr_chars m c hc)
  | negSucc m =>
    intro c hc
    have he : (toString (Int.negSucc m)).toList = '-' :: (Nat.repr (m + 1)).toList := rfl
    rw [he] at hc
    rcases List.mem_cons.1 hc with h1 | h1
    · subst h1; decide
    · exact List.mem_append_left _ (nat_repr_chars (m + 1) c h1)

theorem toString_int_ne (n : Int) (s : String) (c : Char) (hc : c ∈ s.toList)
    (hbad : c ∉ allowedIntChars) : toString n ≠ s := by
  intro he
  exact hbad (int_toString_chars n c (by rw [he]; exact hc))

theorem probeCount_sleepSingleton (ms : Nat) : probeCount [Event.sleepE ms] = 0 := rfl

theorem probeCount_cons_sleep (ms : Nat) (tr : List Event) :
    probeCount (Event.sleepE ms :: tr) = probeCount tr := by
  simp [probeCount, List.filter]

theorem probeCount_launchAfterValidation (fq : Int) (go : PyGain) (rt : Bool)
    (env : LaunchEnv) (s : St) :
    probeCount (launchAfterValidation fq go rt env s).2.2 = 0 := by
  by_cases hp : (is_rtl_sdr_present env.enum).1 = true
  · cases rt <;>
      simp [launchAfterValidation, hp, probeCount_append, probeCount_preFlight,
        probeCount_presence, probeCount_attemptLoop, probeCount_sleepSingleton,
        probeCount_cons_sleep]
  · simp only [Bool.not_eq_true] at hp
    simp [launchAfterValidation, hp, probeCount_append, probeCount_preFlight,
      probeCount_presence]

theorem probeCount_start_streaming (fa : Option Int) (go : PyGain) (rt : Bool)
    (env : LaunchEnv) (s : St) :
    probeCount (start_streaming fa go rt env s).2.2 = 0 := by
  by_cases hv : valid_freq (fa.getD (s.config.frequency.getD 101500000)) = true
  · simp only [start_streaming, hv, if_true]
    exact probeCount_launchAfterValidation _ _ _ _ _
  · simp only [start_streaming, hv, if_false, Bool.false_eq_true]
    rfl

/-- C1: a tune or launch request with integer frequency f passes validation
exactly when 530000 ≤ f ≤ 1700000 or 87500000 ≤ f ≤ 108000000.  For every f
outside both ranges the tune endpoint answers 400 with the session state,
the persisted configuration and the event trace all unchanged, and the
launcher fails with no state change and no external effect; for every f in
range the tune endpoint never answers with the validation status 400. -/
theorem C1_frequency_validation (f : Int) (go : PyGain) (rt : Bool)
    (env : LaunchEnv) (s : St) :
    (valid_freq f = true ↔
      (530000 ≤ f ∧ f ≤ 1700000) ∨ (87500000 ≤ f ∧ f ≤ 108000000)) ∧
    (valid_freq f = false →
      api_tune (.val f) env s = ({ status := 400, success := false }, s, []) ∧
      start_streaming (some f) go rt env s = (false, s, [])) ∧
    (valid_freq f = true → (api_tune (.val f) env s).1.status ≠ 400) := by
  refine ⟨?_, ?_, ?_⟩
  · simp [valid_freq]
  · intro h
    constructor
    · simp [api_tune, h]
    · simp [start_streaming, h]
  · intro h
    simp only [api_tune, h, if_true]
    split <;> simp

/-- C1 witness: frequency 42 is out of range and rejected with 400 and no
state change; frequency 99500000 is in range and not rejected with 400. -/
theorem C1_witness :
    (valid_freq 42 = false ∧
      api_tune (.val 42) envAbsent st0 = ({ status := 400, success := false }, st0, [])) ∧
    (valid_freq 99500000 = true ∧
      (api_tune (.val 99500000) envAbsent st0).1.status ≠ 400) :=
  ⟨⟨by decide, ((C1_frequency_validation 42 .pynone false envAbsent st0).2.1 (by decide)).1⟩,
   ⟨by decide, (C1_frequency_validation 99500000 .pynone false envAbsent st0).2.2 (by decide)⟩⟩

/-- C5: stop_streaming is total over every termination outcome (the source
swallows every exception), always leaves the session not playing with both
handles cleared and every other field untouched, and is a strict no-op on
an idle session. -/
theorem C5_stop_idempotent_total (timeout : Nat) (f : Nat → TermOutcome) (s : St) :
    (stop_streaming timeout f s).1.is_playing = false ∧
    (stop_streaming timeout f s).1.audio_process = none ∧
    (stop_streaming timeout f s).1.rtl_process = none ∧
    (stop_streaming timeout f s).1.current_frequency = s.current_frequency ∧
    (stop_streaming timeout f s).1.config = s.config ∧
    (stop_streaming timeout f s).1.persisted = s.persisted ∧
    (stop_streaming timeout f s).1.first_stream_this_session =
      s.first_stream_this_session ∧
    (s.is_playing = false ∧ s.audio_process = none ∧ s.rtl_process = none →
      stop_streaming timeout f s = (s, [])) := by
  refine ⟨rfl, rfl, rfl, rfl, rfl, rfl, rfl, ?_⟩
  rintro ⟨h1, h2, h3⟩
  have hs : stopState s = s := by
    cases s
    simp_all [stopState]
  have ht : stopTrace f s = [] := by
    simp [stopTrace, h2, h3]
  simp [stop_streaming, hs, ht]

/-- C5 witness: stopping the idle initial state is a no-op with no events. -/
theorem C5_witness :
    (st0.is_playing = false ∧ st0.audio_process = none ∧ st0.rtl_process = none) ∧
    stop_streaming 5 (fun _ => TermOutcome.ok) st0 = (st0, []) :=
  ⟨by decide,
   (C5_stop_idempotent_total 5 (fun _ => TermOutcome.ok) st0).2.2.2.2.2.2.2
     (by decide)⟩

/-- C6: a stream request while no session is playing, or while the final
stage handle is absent, answers the 503 not active response with the state
unchanged and no events (in particular no pipeline launch). -/
theorem C6_stream_not_active (s : St)
    (h : s.is_playing = false ∨ s.audio_process = none) :
    api_stream s = (StreamResp.notActive, s, []) ∧
    streamStatus StreamResp.notActive = 503 := by
  refine ⟨?_, rfl⟩
  rcases h with h | h <;> simp [api_stream, h]

/-- C6 witness: the initial idle state gets the 503 refusal unchanged. -/
theorem C6_witness :
    (st0.is_playing = false ∨ st0.audio_process = none) ∧
    api_stream st0 = (StreamResp.notActive, st0, []) :=
  ⟨Or.inl (by decide), (C6_stream_not_active st0 (Or.inl (by decide))).1⟩

/-- C7: the presence check runs exactly one lsusb enumeration and never the
rtl_test capability probe, and returns false (not present) when the
enumeration fails; the capability prober runs rtl_test at most once per
call; and a whole launcher call never invokes the capability probe at all
(zero probes, hence at most one per attempt). -/
theorem C7_presence_vs_probe :
    (∀ o, (is_rtl_sdr_present o).2 = [Event.run ["lsusb"]]) ∧
    (is_rtl_sdr_present EnumOutcome.failure).1 = false ∧
    (∀ e p, probeCount (detect_rtl_sdr e p).2 ≤ 1) ∧
    (∀ fa go rt env s, probeCount (start_streaming fa go rt env s).2.2 = 0) := by
  refine ⟨fun o => ?_, rfl, fun e p => ?_, fun fa go rt env s =>
    probeCount_start_streaming fa go rt env s⟩
  · cases o <;> rfl
  · have htr : (is_rtl_sdr_present e).2 = [Event.run ["lsusb"]] := by cases e <;> rfl
    by_cases hp : (is_rtl_sdr_present e).1 = true
    · cases p <;> simp only [detect_rtl_sdr, hp, if_true, htr] <;> decide
    · simp only [Bool.not_eq_true] at hp
      simp only [detect_rtl_sdr, hp, if_false, Bool.false_eq_true, htr]
      decide

theorem applyEpoch_freq (g : PyGain) (s : St) :
    (applyEpoch g s).2.current_frequency = s.current_frequency := by
  by_cases h : s.first_stream_this_session = true <;> simp_all [applyEpoch]

theorem applyEpoch_first_false (g : PyGain) (s : St) :
    (applyEpoch g s).2.first_stream_this_session = false := by
  by_cases h : s.first_stream_this_session = true <;> simp_all [applyEpoch]

theorem applyEpoch_gain_of_first_clamp (g : PyGain) (s : St)
    (h : s.first_stream_this_session = true) (hc : gainNeedsClamp g = true) :
    (applyEpoch g s).1 = PyGain.num 0 := by
  simp [applyEpoch, h, hc]

theorem applyEpoch_gain_of_first_noclamp (g : PyGain) (s : St)
    (h : s.first_stream_this_session = true) (hc : gainNeedsClamp g = false) :
    (applyEpoch g s).1 = g := by
  simp [applyEpoch, h, hc]

theorem applyEpoch_gain_of_not_first (g : PyGain) (s : St)
    (h : s.first_stream_this_session = false) : (applyEpoch g s).1 = g := by
  simp [applyEpoch, h]

theorem launchAfterValidation_freq (fq : Int) (go : PyGain) (rt : Bool)
    (env : LaunchEnv) (s : St) :
    (launchAfterValidation fq go rt env s).2.1.current_frequency =
      s.current_frequency := by
  by_cases hp : (is_rtl_sdr_present env.enum).1 = true
  · simp [launchAfterValidation, hp, attemptLoop_freq, applyEpoch_freq, preFlight_freq]
  · simp only [Bool.not_eq_true] at hp
    simp [launchAfterValidation, hp, preFlight_freq]

theorem launchAfterValidation_false_is_playing (fq : Int) (go : PyGain) (rt : Bool)
    (env : LaunchEnv) (s : St)
    (h : (launchAfterValidation fq go rt env s).1 = false) :
    (launchAfterValidation fq go rt env s).2.1.is_playing = false := by
  by_cases hp : (is_rtl_sdr_present env.enum).1 = true
  · simp only [launchAfterValidation, hp, if_true] at h ⊢
    exact (attemptLoop_false_state _ _ _ _ _ h).1
  · simp only [Bool.not_eq_true] at hp
    simp [launchAfterValidation, hp, preFlight_is_playing]

/-- C9: a launch with an in range frequency records it in current_frequency
before the presence check and before any subprocess is started: whatever
the environment does afterwards (device absent, first stage dying on both
attempts), the final state carries that frequency, a failed launch leaves
the session not playing, and the status snapshot reports exactly these
session fields. -/
theorem C9_frequency_sticky (f : Int) (go : PyGain) (rt : Bool) (env : LaunchEnv)
    (s : St) (e2 : EnumOutcome) (temp : Option Int)
    (hv : valid_freq f = true) :
    (start_streaming (some f) go rt env s).2.1.current_frequency = some f ∧
    ((start_streaming (some f) go rt env s).1 = false →
      (start_streaming (some f) go rt env s).2.1.is_playing = false) ∧
    (get_system_status e2 temp
      (start_streaming (some f) go rt env s).2.1).1.current_frequency = some f ∧
    (get_system_status e2 temp
      (start_streaming (some f) go rt env s).2.1).1.is_playing =
      (start_streaming (some f) go rt env s).2.1.is_playing := by
  have hfreq : (start_streaming (some f) go rt env s).2.1.current_frequency = some f := by
    simp only [start_streaming, Option.getD_some, hv, if_true]
    rw [launchAfterValidation_freq]
  refine ⟨hfreq, ?_, ?_, ?_⟩
  · intro h
    simp only [start_streaming, Option.getD_some, hv, if_true] at h ⊢
    exact launchAfterValidation_false_is_playing _ _ _ _ _ h
  · simpa [get_system_status] using hfreq
  · simp [get_system_status]

/-- C9 witness: launching 99.5 MHz with no device enumerated fails but the
state and the status snapshot still carry the frequency, not playing. -/
theorem C9_witness :
    valid_freq 99500000 = true ∧
    (start_streaming (some 99500000) .pynone false envAbsent st0).2.1.current_frequency =
      some 99500000 ∧
    (get_system_status EnumOutcome.failure none
      (start_streaming (some 99500000) .pynone false envAbsent st0).2.1).1.current_frequency =
      some 99500000 :=
  ⟨by decide,
   (C9_frequency_sticky 99500000 .pynone false envAbsent st0 EnumOutcome.failure none
      (by decide)).1,
   (C9_frequency_sticky 99500000 .pynone false envAbsent st0 EnumOutcome.failure none
      (by decide)).2.2.1⟩

theorem launchAfterValidation_present_fst (fq : Int) (go : PyGain) (rt : Bool)
    (env : LaunchEnv) (s : St) (hp : (is_rtl_sdr_present env.enum).1 = true) :
    (launchAfterValidation fq go rt env s).1 = (env.survives0 || env.survives1) := by
  simp only [launchAfterValidation, hp, if_true]
  rw [attemptLoop_fst]

theorem launchAfterValidation_present_trace (fq : Int) (go : PyGain) (rt : Bool)
    (env : LaunchEnv) (s : St) (hp : (is_rtl_sdr_present env.enum).1 = true) :
    (launchAfterValidation fq go rt env s).2.2 =
      ((preFlight rt env.termOutcome s).2 ++ (is_rtl_sdr_present env.enum).2 ++
        (if rt then [] else [Event.sleepE 1500])) ++
      (attemptLoop
        (rtl_cmd_for (isAM fq) fq
          ((preFlight rt env.termOutcome s).1.config.sample_rate.getD 170000)
          (applyEpoch (resolveGain go (preFlight rt env.termOutcome s).1.config)
            (preFlight rt env.termOutcome s).1).1)
        (sox_cmd_for (isAM fq))
        (ffmpeg_cmd_for ((preFlight rt env.termOutcome s).1.config.audio_bitrate.getD 128))
        env
        (applyEpoch (resolveGain go (preFlight rt env.termOutcome s).1.config)
          (preFlight rt env.termOutcome s).1).2).2.2 := by
  simp only [launchAfterValidation, hp, if_true]

theorem rtlSpawnCount_sleepOpt (rt : Bool) :
    rtlSpawnCount (if rt then ([] : List Event) else [Event.sleepE 1500]) = 0 := by
  cases rt <;> rfl

/-- C3: with the device enumerated and the first stage dying within the
liveness window on the first attempt, the launcher makes exactly two
launch attempts in total (two rtl_fm spawns, not one, not three), with the
four second backoff sleep recorded between the two attempts, and it
reports failure exactly when the second attempt has also died within the
window. -/
theorem C3_retry_exactly_once (f : Int) (go : PyGain) (rt : Bool) (env : LaunchEnv)
    (s : St) (hv : valid_freq f = true)
    (hp : (is_rtl_sdr_present env.enum).1 = true)
    (h0 : env.survives0 = false) :
    rtlSpawnCount (start_streaming (some f) go rt env s).2.2 = 2 ∧
    (∃ t1 t2, (start_streaming (some f) go rt env s).2.2 =
        t1 ++ [Event.sleepE 4000] ++ t2 ∧
        rtlSpawnCount t1 = 1 ∧ rtlSpawnCount t2 = 1) ∧
    ((start_streaming (some f) go rt env s).1 = false ↔ env.survives1 = false) := by
  have hstart : start_streaming (some f) go rt env s =
      launchAfterValidation f go rt env { s with current_frequency := some f } := by
    simp [start_streaming, hv]
  set s' : St := { s with current_frequency := some f } with hs'
  set rc := rtl_cmd_for (isAM f) f
      ((preFlight rt env.termOutcome s').1.config.sample_rate.getD 170000)
      (applyEpoch (resolveGain go (preFlight rt env.termOutcome s').1.config)
        (preFlight rt env.termOutcome s').1).1 with hrc
  set sc := sox_cmd_for (isAM f) with hsc
  set fc := ffmpeg_cmd_for
      ((preFlight rt env.termOutcome s').1.config.audio_bitrate.getD 128) with hfc
  set s2 := (applyEpoch (resolveGain go (preFlight rt env.termOutcome s').1.config)
      (preFlight rt env.termOutcome s').1).2 with hs2
  have hrh : rc.head? = some "rtl_fm" := by rw [hrc]; exact rtl_cmd_head _ _ _ _
  have hsh : sc.head? = some "sox" := by rw [hsc]; exact sox_cmd_head _
  have hfh : fc.head? = some "ffmpeg" := by rw [hfc]; exact ffmpeg_cmd_head _
  have htr : (start_streaming (some f) go rt env s).2.2 =
      ((preFlight rt env.termOutcome s').2 ++ (is_rtl_sdr_present env.enum).2 ++
        (if rt then [] else [Event.sleepE 1500])) ++
      (attemptLoop rc sc fc env s2).2.2 := by
    rw [hstart]
    exact launchAfterValidation_present_trace f go rt env s' hp
  have hloop : (attemptLoop rc sc fc env s2).2.2 =
      (tryAttempt rc sc fc false env.termOutcome s2).2.2 ++ [Event.sleepE 4000] ++
      (tryAttempt rc sc fc env.survives1 env.termOutcome
        (tryAttempt rc sc fc false env.termOutcome s2).2.1).2.2 :=
    attemptLoop_trace_die0 rc sc fc env s2 h0
  have hcnt1 : rtlSpawnCount (tryAttempt rc sc fc false env.termOutcome s2).2.2 = 1 :=
    rtlSpawnCount_tryAttempt sc fc false env.termOutcome s2 hrh hsh hfh
  have hcnt2 : rtlSpawnCount (tryAttempt rc sc fc env.survives1 env.termOutcome
      (tryAttempt rc sc fc false env.termOutcome s2).2.1).2.2 = 1 :=
    rtlSpawnCount_tryAttempt sc fc env.survives1 env.termOutcome _ hrh hsh hfh
  have hpre : rtlSpawnCount ((preFlight rt env.termOutcome s').2 ++
      (is_rtl_sdr_present env.enum).2 ++
      (if rt then [] else [Event.sleepE 1500])) = 0 := by
    rw [rtlSpawnCount_append, rtlSpawnCount_append, rtlSpawnCount_preFlight,
      rtlSpawnCount_presence, rtlSpawnCount_sleepOpt]
  refine ⟨?_, ?_, ?_⟩
  · rw [htr, hloop, rtlSpawnCount_append, hpre, rtlSpawnCount_append,
      rtlSpawnCount_append, hcnt1, hcnt2]
    rfl
  · refine ⟨((preFlight rt env.termOutcome s').2 ++ (is_rtl_sdr_present env.enum).2 ++
      (if rt then [] else [Event.sleepE 1500])) ++
      (tryAttempt rc sc fc false env.termOutcome s2).2.2,
      (tryAttempt rc sc fc env.survives1 env.termOutcome
        (tryAttempt rc sc fc false env.termOutcome s2).2.1).2.2, ?_, ?_, hcnt2⟩
    · rw [htr, hloop]
      simp [List.append_assoc]
    · rw [rtlSpawnCount_append, hpre, hcnt1]
  · rw [hstart, launchAfterValidation_present_fst f go rt env s' hp, h0]
    cases env.survives1 <;> simp

/-- C3 witness: launching 99.5 MHz from the idle initial state with the
device enumerated and the first stage dying on both attempts makes exactly
two rtl_fm spawn attempts and fails. -/
theorem C3_witness :
    (valid_freq 99500000 = true ∧ (is_rtl_sdr_present envDies.enum).1 = true ∧
      envDies.survives0 = false) ∧
    rtlSpawnCount (start_streaming (some 99500000) .pynone false envDies st0).2.2 = 2 :=
  ⟨⟨by decide, by decide, by decide⟩,
   (C3_retry_exactly_once 99500000 .pynone false envDies st0 (by decide) (by decide)
      (by decide)).1⟩

/-- C2 counterexample: a launch issued while a session is active (stPlaying
is playing with live handles 41 and 43) that fails after the teardown here
the device is no longer enumerated - completes with ZERO active pipelines:
not playing and both handles cleared.  This refutes the claim that such a
launch always ends with exactly one active pipeline (never zero). -/
theorem C2_counterexample :
    stPlaying.is_playing = true ∧
    (start_streaming (some 99500000) .pynone true envAbsent stPlaying).1 = false ∧
    (start_streaming (some 99500000) .pynone true envAbsent stPlaying).2.1.is_playing
      = false ∧
    (start_streaming (some 99500000) .pynone true envAbsent stPlaying).2.1.rtl_process
      = none ∧
    (start_streaming (some 99500000) .pynone true envAbsent stPlaying).2.1.audio_process
      = none := by
  refine ⟨rfl, ?_, ?_, ?_, ?_⟩ <;> rfl

/-- C2 amended: a launch issued while a session is active with a valid
frequency never yields two live pipelines: the prior final stage and first
stage processes receive their terminate calls in a trace prefix that
contains no spawn at all (teardown strictly precedes any new process), and
afterwards exactly one pipeline is active when the launch succeeds, zero
when it fails (the failed launch tears everything down). -/
theorem C2_amended (f : Int) (go : PyGain) (rt : Bool) (env : LaunchEnv) (s : St)
    (pa pr : Nat) (hplay : s.is_playing = true)
    (ha : s.audio_process = some pa) (hr : s.rtl_process = some pr)
    (hv : valid_freq f = true) :
    (∃ t1 t2, (start_streaming (some f) go rt env s).2.2 = t1 ++ t2 ∧
      Event.terminate pa ∈ t1 ∧ Event.terminate pr ∈ t1 ∧
      ∀ e ∈ t1, isSpawn e = false) ∧
    ((start_streaming (some f) go rt env s).1 = true →
      (start_streaming (some f) go rt env s).2.1.is_playing = true ∧
      (start_streaming (some f) go rt env s).2.1.rtl_process.isSome = true ∧
      (start_streaming (some f) go rt env s).2.1.audio_process.isSome = true) ∧
    ((start_streaming (some f) go rt env s).1 = false →
      (start_streaming (some f) go rt env s).2.1.is_playing = false ∧
      (start_streaming (some f) go rt env s).2.1.rtl_process = none ∧
      (start_streaming (some f) go rt env s).2.1.audio_process = none) := by
  have hstart : start_streaming (some f) go rt env s =
      launchAfterValidation f go rt env { s with current_frequency := some f } := by
    simp [start_streaming, hv]
  set s' : St := { s with current_frequency := some f } with hs'
  have hplay' : s'.is_playing = true := hplay
  have ha' : s'.audio_process = some pa := ha
  have hr' : s'.rtl_process = some pr := hr
  have hpretr : (preFlight rt env.termOutcome s').2 =
      stopTrace env.termOutcome s' ++ [Event.sleepE (if rt then 300 else 500)] :=
    preFlight_trace_of_playing rt env.termOutcome s' hplay'
  have hmem_a : Event.terminate pa ∈
      (preFlight rt env.termOutcome s').2 ++ (is_rtl_sdr_present env.enum).2 := by
    rw [hpretr]
    exact List.mem_append_left _
      (List.mem_append_left _ (terminate_audio_mem_stopTrace ha'))
  have hmem_r : Event.terminate pr ∈
      (preFlight rt env.termOutcome s').2 ++ (is_rtl_sdr_present env.enum).2 := by
    rw [hpretr]
    exact List.mem_append_left _
      (List.mem_append_left _ (terminate_rtl_mem_stopTrace hr'))
  have hnospawn : ∀ e ∈ (preFlight rt env.termOutcome s').2 ++
      (is_rtl_sdr_present env.enum).2, isSpawn e = false := by
    intro e he
    rcases List.mem_append.1 he with h1 | h1
    · rcases preFlight_mem h1 with ⟨p, hp | hp⟩ | ⟨ms, hm⟩ <;> subst_vars <;> rfl
    · have : (is_rtl_sdr_present env.enum).2 = [Event.run ["lsusb"]] := by
        cases env.enum <;> rfl
      rw [this] at h1
      simp only [List.mem_singleton] at h1
      subst h1
      rfl
  set rc := rtl_cmd_for (isAM f) f
      ((preFlight rt env.termOutcome s').1.config.sample_rate.getD 170000)
      (applyEpoch (resolveGain go (preFlight rt env.termOutcome s').1.config)
        (preFlight rt env.termOutcome s').1).1 with hrc
  set sc := sox_cmd_for (isAM f) with hsc
  set fc := ffmpeg_cmd_for
      ((preFlight rt env.termOutcome s').1.config.audio_bitrate.getD 128) with hfc
  set s2 := (applyEpoch (resolveGain go (preFlight rt env.termOutcome s').1.config)
      (preFlight rt env.termOutcome s').1).2 with hs2
  refine ⟨?_, ?_, ?_⟩
  · by_cases hp : (is_rtl_sdr_present env.enum).1 = true
    · refine ⟨(preFlight rt env.termOutcome s').2 ++ (is_rtl_sdr_present env.enum).2,
        (if rt then [] else [Event.sleepE 1500]) ++ (attemptLoop rc sc fc env s2).2.2,
        ?_, hmem_a, hmem_r, hnospawn⟩
      rw [hstart, launchAfterValidation_present_trace f go rt env s' hp, ← hrc, ← hsc,
        ← hfc, ← hs2]
      simp [List.append_assoc]
    · simp only [Bool.not_eq_true] at hp
      refine ⟨(preFlight rt env.termOutcome s').2 ++ (is_rtl_sdr_present env.enum).2,
        [], ?_, hmem_a, hmem_r, hnospawn⟩
      rw [hstart]
      simp [launchAfterValidation, hp]
  · intro h
    rw [hstart] at h ⊢
    by_cases hp : (is_rtl_sdr_present env.enum).1 = true
    · simp only [launchAfterValidation, hp, if_true] at h ⊢
      exact attemptLoop_true_state _ _ _ _ _ h
    · simp only [Bool.not_eq_true] at hp
      simp [launchAfterValidation, hp] at h
  · intro h
    rw [hstart] at h ⊢
    by_cases hp : (is_rtl_sdr_present env.enum).1 = true
    · simp only [launchAfterValidation, hp, if_true] at h ⊢
      exact attemptLoop_false_state _ _ _ _ _ h
    · simp only [Bool.not_eq_true] at hp
      simp only [launchAfterValidation, hp, if_false, Bool.false_eq_true]
      exact ⟨preFlight_is_playing rt env.termOutcome s',
        (preFlight_handles_of_playing rt env.termOutcome s' hplay').1,
        (preFlight_handles_of_playing rt env.termOutcome s' hplay').2⟩

/-- C2 witness: retuning the playing session stPlaying (handles 43 and 41)
with the device present and a surviving first stage ends with exactly one
active pipeline; the teardown of pids 43 and 41 happens in a spawn free
trace prefix. -/
theorem C2_witness :
    (stPlaying.is_playing = true ∧ stPlaying.audio_process = some 43 ∧
      stPlaying.rtl_process = some 41 ∧ valid_freq 99500000 = true) ∧
    ((start_streaming (some 99500000) .pynone true envOk stPlaying).2.1.is_playing
        = true ∧
      (start_streaming
        (some 99500000) .pynone true envOk stPlaying).2.1.rtl_process.isSome = true ∧
      (start_streaming
        (some 99500000) .pynone true envOk stPlaying).2.1.audio_process.isSome = true) :=
  ⟨⟨rfl, rfl, rfl, by decide⟩,
   (C2_amended 99500000 .pynone true envOk stPlaying 43 41 rfl rfl rfl
      (by decide)).2.1 (by decide)⟩

theorem launchAfterValidation_rtlGainOk (fq : Int) (go : PyGain) (rt : Bool)
    (env : LaunchEnv) (s : St) (g : PyGain)
    (hp : (is_rtl_sdr_present env.enum).1 = true)
    (hg : (applyEpoch (resolveGain go (preFlight rt env.termOutcome s).1.config)
        (preFlight rt env.termOutcome s).1).1 = g) :
    rtlGainOk g (launchAfterValidation fq go rt env s).2.2 := by
  intro c p hmem hhead
  rw [launchAfterValidation_present_trace fq go rt env s hp] at hmem
  rcases List.mem_append.1 hmem with h1 | h1
  · rcases List.mem_append.1 h1 with h2 | h2
    · rcases List.mem_append.1 h2 with h3 | h3
      · rcases preFlight_mem h3 with ⟨q, hq | hq⟩ | ⟨ms, hm⟩ <;> simp_all
      · have he : (is_rtl_sdr_present env.enum).2 = [Event.run ["lsusb"]] := by
          cases env.enum <;> rfl
        rw [he] at h3
        simp_all
    · cases rt <;> simp_all
  · rcases attemptLoop_spawn_mem h1 with hcc | hcc | hcc
    · rw [hcc, ← hg]
      exact gainArgs_suffix_rtl_cmd _ _ _ _
    · rw [hcc, sox_cmd_head] at hhead
      simp at hhead
    · rw [hcc, ffmpeg_cmd_head] at hhead
      simp at hhead

/-- C4 counterexample: from the fresh state st0 (epoch latch armed), a
first launch with gain left unset fails (the first stage dies on both
attempts) but still consumes the latch with the clamp applied; the second
launch, the FIRST SUCCESSFUL one of the process lifetime, requests gain
auto - a qualifying value - yet runs rtl_fm with the AGC flag -T and not
with an effective gain of 0.  This refutes the claim that the first
successful launch with qualifying gain runs with effective gain 0. -/
theorem C4_counterexample :
    st0.first_stream_this_session = true ∧
    (start_streaming (some 99500000) .pynone false envDies st0).1 = false ∧
    ((start_streaming (some 99500000) PyGain.auto false envOk
        (start_streaming (some 99500000) .pynone false envDies st0).2.1).1 = true ∧
      someRtlSpawnAGC (start_streaming (some 99500000) PyGain.auto false envOk
        (start_streaming (some 99500000) .pynone false envDies st0).2.1).2.2 = true ∧
      someRtlSpawnNotGain0 (start_streaming (some 99500000) PyGain.auto false envOk
        (start_streaming (some 99500000) .pynone false envDies st0).2.1).2.2 = true) := by
  refine ⟨rfl, by decide, by decide, by decide, by decide⟩

/-- C4 amended: the epoch latch is consumed by the first launch that passes
validation and the device presence check, successful or not: after any such
launch the latch is down; while the latch is armed a qualifying requested
gain (auto, unset, or above 20) makes every rtl_fm spawn of that launch run
with gain 0 and a non qualifying gain is passed through; once the latch is
down every launch passes the resolved requested gain through unclamped. -/
theorem C4_amended (f : Int) (go : PyGain) (rt : Bool) (env : LaunchEnv) (s : St)
    (hv : valid_freq f = true) (hp : (is_rtl_sdr_present env.enum).1 = true) :
    (start_streaming (some f) go rt env s).2.1.first_stream_this_session = false ∧
    (s.first_stream_this_session = true →
      gainNeedsClamp (resolveGain go s.config) = true →
      rtlGainOk (.num 0) (start_streaming (some f) go rt env s).2.2) ∧
    (s.first_stream_this_session = true →
      gainNeedsClamp (resolveGain go s.config) = false →
      rtlGainOk (resolveGain go s.config) (start_streaming (some f) go rt env s).2.2) ∧
    (s.first_stream_this_session = false →
      rtlGainOk (resolveGain go s.config) (start_streaming (some f) go rt env s).2.2) := by
  have hstart : start_streaming (some f) go rt env s =
      launchAfterValidation f go rt env { s with current_frequency := some f } := by
    simp [start_streaming, hv]
  set s' : St := { s with current_frequency := some f } with hs'
  have hcfg : (preFlight rt env.termOutcome s').1.config = s.config :=
    preFlight_config rt env.termOutcome s'
  have hfirst : (preFlight rt env.termOutcome s').1.first_stream_this_session =
      s.first_stream_this_session :=
    preFlight_first_stream rt env.termOutcome s'
  refine ⟨?_, ?_, ?_, ?_⟩
  · rw [hstart]
    simp only [launchAfterValidation, hp, if_true]
    rw [attemptLoop_first_stream]
    exact applyEpoch_first_false _ _
  · intro h1 h2
    rw [hstart]
    refine launchAfterValidation_rtlGainOk f go rt env s' _ hp ?_
    rw [hcfg]
    exact applyEpoch_gain_of_first_clamp _ _ (by rw [hfirst]; exact h1) h2
  · intro h1 h2
    rw [hstart]
    refine launchAfterValidation_rtlGainOk f go rt env s' _ hp ?_
    rw [hcfg]
    exact applyEpoch_gain_of_first_noclamp _ _ (by rw [hfirst]; exact h1) h2
  · intro h1
    rw [hstart]
    refine launchAfterValidation_rtlGainOk f go rt env s' _ hp ?_
    rw [hcfg]
    exact applyEpoch_gain_of_not_first _ _ (by rw [hfirst]; exact h1)

/-- C4 witness: with the latch armed (st0) a launch requesting gain auto
runs every rtl_fm spawn with gain 0; with the latch down (stPlaying) a
launch requesting gain auto passes auto through to the AGC flag. -/
theorem C4_amended_witness :
    (valid_freq 99500000 = true ∧ (is_rtl_sdr_present envOk.enum).1 = true ∧
      st0.first_stream_this_session = true ∧
      gainNeedsClamp (resolveGain PyGain.auto st0.config) = true ∧
      stPlaying.first_stream_this_session = false) ∧
    rtlGainOk (.num 0) (start_streaming (some 99500000) PyGain.auto false envOk st0).2.2 ∧
    rtlGainOk (resolveGain PyGain.auto stPlaying.config)
      (start_streaming (some 99500000) PyGain.auto false envOk stPlaying).2.2 :=
  ⟨⟨by decide, by decide, rfl, by decide, rfl⟩,
   (C4_amended 99500000 PyGain.auto false envOk st0 (by decide) (by decide)).2.1
     rfl (by decide),
   (C4_amended 99500000 PyGain.auto false envOk stPlaying (by decide)
     (by decide)).2.2.2 rfl⟩

theorem dashE_not_mem_gainArgs (g : PyGain) : "-E" ∉ gainArgs g := by
  cases g with
  | auto => decide
  | pynone => decide
  | num n =>
    intro h
    rcases List.mem_cons.1 h with h1 | h1
    · exact absurd h1 (by decide)
    · have h2 := List.mem_singleton.1 h1
      exact toString_int_ne n "-E" 'E' (by decide) (by decide) h2.symm

/-- C8: for an accepted AM band frequency the demodulator stage runs in AM
direct sampling mode at the 24 kHz device and output rate with the DC
blocking flag and a tuned frequency of max(0, f - 264000), and the middle
stage appends the +20 dB gain boost followed by normalization to -3 dB; for
an accepted FM band frequency the demodulator gets the unmodified frequency
at a 48 kHz output rate and none of the AM specific -E flags or sox gain
and norm effects appear. -/
theorem C8_band_specific_pipeline (f sr : Int) (g : PyGain) :
    ((530000 ≤ f ∧ f ≤ 1700000) →
      argAfter "-f" (rtl_cmd_for (isAM f) f sr g) =
        some (toString (max 0 (f - 264000))) ∧
      ["-s", "24000"] <:+: rtl_cmd_for (isAM f) f sr g ∧
      ["-r", "24000"] <:+: rtl_cmd_for (isAM f) f sr g ∧
      ["-E", "dc"] <:+: rtl_cmd_for (isAM f) f sr g ∧
      ["gain", "20", "norm", "-3"] <:+ sox_cmd_for (isAM f)) ∧
    ((87500000 ≤ f ∧ f ≤ 108000000) →
      argAfter "-f" (rtl_cmd_for (isAM f) f sr g) = some (toString f) ∧
      ["-r", "48000"] <:+: rtl_cmd_for (isAM f) f sr g ∧
      "-E" ∉ rtl_cmd_for (isAM f) f sr g ∧
      "gain" ∉ sox_cmd_for (isAM f) ∧ "norm" ∉ sox_cmd_for (isAM f)) := by
  constructor
  · intro h
    have ham : isAM f = true := by
      unfold isAM
      rw [decide_eq_true h.1, decide_eq_true h.2]
      rfl
    have hcmd : rtl_cmd_for (isAM f) f sr g =
        "rtl_fm" :: "-f" :: toString (max 0 (f - 264000)) :: "-s" :: "24000" ::
        "-M" :: "am" :: "-r" :: "24000" :: "-E" :: "direct" :: "-E" :: "edge" ::
        "-E" :: "dc" :: "-A" :: "fast" :: gainArgs g := by
      rw [ham]
      simp [rtl_cmd_for, rtl_base_cmd, AM_DIRECT_OFFSET_HZ]
    refine ⟨?_, ?_, ?_, ?_, ?_⟩
    · rw [hcmd]
      simp [argAfter]
    · rw [hcmd]
      exact ⟨["rtl_fm", "-f", toString (max 0 (f - 264000))],
        "-M" :: "am" :: "-r" :: "24000" :: "-E" :: "direct" :: "-E" :: "edge" ::
        "-E" :: "dc" :: "-A" :: "fast" :: gainArgs g, by simp⟩
    · rw [hcmd]
      exact ⟨["rtl_fm", "-f", toString (max 0 (f - 264000)), "-s", "24000", "-M", "am"],
        "-E" :: "direct" :: "-E" :: "edge" :: "-E" :: "dc" :: "-A" :: "fast" ::
        gainArgs g, by simp⟩
    · rw [hcmd]
      exact ⟨["rtl_fm", "-f", toString (max 0 (f - 264000)), "-s", "24000", "-M", "am",
        "-r", "24000", "-E", "direct", "-E", "edge"],
        "-A" :: "fast" :: gainArgs g, by simp⟩
    · rw [ham]
      exact List.suffix_append _ _
  · intro h
    have hfm : isAM f = false := by
      unfold isAM
      have hn : ¬ (f ≤ 1700000) := by omega
      rw [decide_eq_false hn]
      simp
    have hcmd : rtl_cmd_for (isAM f) f sr g =
        "rtl_fm" :: "-f" :: toString f :: "-s" :: toString sr :: "-M" :: "wfm" ::
        "-r" :: "48000" :: "-A" :: "fast" :: gainArgs g := by
      rw [hfm]
      simp [rtl_cmd_for, rtl_base_cmd]
    refine ⟨?_, ?_, ?_, ?_, ?_⟩
    · rw [hcmd]
      simp [argAfter]
    · rw [hcmd]
      exact ⟨["rtl_fm", "-f", toString f, "-s", toString sr, "-M", "wfm"],
        "-A" :: "fast" :: gainArgs g, by simp⟩
    · rw [hcmd]
      intro hmem
      simp only [List.mem_cons] at hmem
      rcases hmem with h1 | h1 | h1 | h1 | h1 | h1 | h1 | h1 | h1 | h1 | h1 | h1
      · exact absurd h1 (by decide)
      · exact absurd h1 (by decide)
      · exact toString_int_ne f "-E" 'E' (by decide) (by decide) h1.symm
      · exact absurd h1 (by decide)
      · exact toString_int_ne sr "-E" 'E' (by decide) (by decide) h1.symm
      · exact absurd h1 (by decide)
      · exact absurd h1 (by decide)
      · exact absurd h1 (by decide)
      · exact absurd h1 (by decide)
      · exact absurd h1 (by decide)
      · exact absurd h1 (by decide)
      · exact dashE_not_mem_gainArgs g h1
    · rw [hfm]
      decide
    · rw [hfm]
      decide

/-- C8 witness: the AM side at 570 kHz (tuned frequency 306000, 24 kHz
rates, DC blocking, gain and norm effects) and the FM side at 99.5 MHz
(unmodified frequency, 48 kHz output, no -E flag, no sox effects). -/
theorem C8_witness :
    ((530000 ≤ (570000 : Int) ∧ (570000 : Int) ≤ 1700000) ∧
      argAfter "-f" (rtl_cmd_for (isAM 570000) 570000 170000 PyGain.auto) =
        some (toString (max 0 ((570000 : Int) - 264000))) ∧
      ["-E", "dc"] <:+: rtl_cmd_for (isAM 570000) 570000 170000 PyGain.auto ∧
      ["gain", "20", "norm", "-3"] <:+ sox_cmd_for (isAM 570000)) ∧
    ((87500000 ≤ (99500000 : Int) ∧ (99500000 : Int) ≤ 108000000) ∧
      argAfter "-f" (rtl_cmd_for (isAM 99500000) 99500000 170000 PyGain.auto) =
        some (toString (99500000 : Int)) ∧
      "-E" ∉ rtl_cmd_for (isAM 99500000) 99500000 170000 PyGain.auto ∧
      "norm" ∉ sox_cmd_for (isAM 99500000)) :=
  ⟨⟨by decide,
    ((C8_band_specific_pipeline 570000 170000 PyGain.auto).1 (by decide)).1,
    ((C8_band_specific_pipeline 570000 170000 PyGain.auto).1 (by decide)).2.2.2.1,
    ((C8_band_specific_pipeline 570000 170000 PyGain.auto).1 (by decide)).2.2.2.2⟩,
   ⟨by decide,
    ((C8_band_specific_pipeline 99500000 170000 PyGain.auto).2 (by decide)).1,
    ((C8_band_specific_pipeline 99500000 170000 PyGain.auto).2 (by decide)).2.2.1,
    ((C8_band_specific_pipeline 99500000 170000 PyGain.auto).2 (by decide)).2.2.2.2⟩⟩

/-- C10: a configuration update whose body carries a frequency or gain key
answers 200 with success true whatever the relaunch environment does, and
its trace is the config save followed by exactly the relaunch trace of the
updated configuration - the relaunch outcome is not reflected in the
response. -/
theorem C10_update_ignores_relaunch_outcome (patch : ConfigPatch) (env : LaunchEnv)
    (s : St) (h : patch.frequency.isSome = true ∨ patch.gain.isSome = true) :
    (api_update_config patch env s).1 = { status := 200, success := true } ∧
    (api_update_config patch env s).2.2 =
      Event.saveConfig ::
        (start_streaming (applyPatch patch s.config).frequency
          (patch.gain.getD .pynone) false env
          { s with config := applyPatch patch s.config,
                   persisted := applyPatch patch s.config }).2.2 := by
  have hb : (patch.frequency.isSome || patch.gain.isSome) = true := by
    rcases h with h | h <;> simp [h]
  constructor <;> simp [api_update_config, hb]

/-- C10 witness: updating the frequency while no device is enumerated (the
relaunch fails) still answers 200 success true. -/
theorem C10_witness :
    ((ConfigPatch.mk (some 99500000) none).frequency.isSome = true ∨
      (ConfigPatch.mk (some 99500000) none).gain.isSome = true) ∧
    (api_update_config (ConfigPatch.mk (some 99500000) none) envAbsent st0).1 =
      { status := 200, success := true } :=
  ⟨Or.inl (by decide),
   (C10_update_ignores_relaunch_outcome (ConfigPatch.mk (some 99500000) none)
      envAbsent st0 (Or.inl (by decide))).1⟩
